import Mathlib

/-
Verification of the suspicious-login-detector risk engine.

The TypeScript sources are embedded shallowly:
- JS `Date` timestamps become integers (milliseconds since the epoch, UTC);
  `date-fns` hour extraction is modelled in UTC.
- JS numbers become rationals; `Math.round` is round half toward positive
  infinity, `Math.min` is `min`.
- `geoip-lite` (an external IP database) and the floating-point Haversine
  distance (`calculateDistance` in src/utils/geoLocation.ts, which uses
  transcendental functions) are abstracted into a `GeoModel` parameter:
  every theorem quantifies over the resolver and the distance function,
  and concrete fixtures instantiate them where a concrete run is needed.
- The mutable per-user profile map of the `SuspiciousLoginDetector` class
  becomes an explicit `DetectorState` value threaded through `analyzeLogin`.
-/

/-- Mirrors interface `GeoLocation` in src/types/index.ts. -/
structure GeoLocation where
  country : String
  region : String
  city : String
  latitude : ℚ
  longitude : ℚ
deriving DecidableEq

/-- Mirrors interface `LoginAttempt` in src/types/index.ts (optional client
metadata fields are dropped: nothing in the engine reads them). -/
structure LoginAttempt where
  userId : String
  timestamp : ℤ
  ipAddress : String
  success : Bool
deriving DecidableEq

/-- Mirrors interface `RiskFactors` in src/types/index.ts. -/
structure RiskFactors where
  locationChange : ℚ
  impossibleTravel : ℚ
  bruteForce : ℚ
  unusualTime : ℚ
deriving DecidableEq

/-- The four risk levels of the classifier. -/
inductive RiskLevel where
  | low
  | medium
  | high
  | critical
deriving DecidableEq

/-- Numeric rank of a risk level, for stating monotonicity. -/
def RiskLevel.rank : RiskLevel → ℕ
  | .low => 0
  | .medium => 1
  | .high => 2
  | .critical => 3

/-- Mirrors the `riskThresholds` record of `DetectorConfig`. -/
structure RiskThresholds where
  low : ℚ
  medium : ℚ
  high : ℚ
  critical : ℚ
deriving DecidableEq

/-- Mirrors interface `DetectorConfig` in src/types/index.ts. -/
structure DetectorConfig where
  maxTravelSpeed : ℚ
  bruteForceWindow : ℚ
  bruteForceThreshold : ℚ
  locationChangeThreshold : ℚ
  riskThresholds : RiskThresholds
deriving DecidableEq

/-- Mirrors `defaultConfig` in src/utils/config.ts. -/
def defaultConfig : DetectorConfig :=
  { maxTravelSpeed := 900
    bruteForceWindow := 30
    bruteForceThreshold := 5
    locationChangeThreshold := 100
    riskThresholds := { low := 30, medium := 50, high := 70, critical := 85 } }

/-- Mirrors interface `UserProfile` in src/types/index.ts. -/
structure UserProfile where
  userId : String
  loginHistory : List LoginAttempt
  typicalLocations : List GeoLocation
  typicalLoginHours : List ℕ
  lastSuccessfulLogin : Option LoginAttempt
  failedAttempts : List LoginAttempt
deriving DecidableEq

/-- The external geo collaborators: the `lookup` of `geoip-lite` (wrapped by
`getLocationFromIP` in src/utils/geoLocation.ts) and the Haversine
`calculateDistance` (floating point and transcendental in the source, so kept
abstract; its output is in kilometres). -/
structure GeoModel where
  getLocationFromIP : String → Option GeoLocation
  calculateDistance : GeoLocation → GeoLocation → ℚ

/-- Mirrors `getTimeDifferenceInHours` in src/utils/timeAnalysis.ts:
`Math.abs(differenceInHours(date1, date2))`. The `differenceInHours` of
`date-fns` truncates toward zero, so the composite equals the absolute millisecond
difference integer-divided by 3600000. -/
def getTimeDifferenceInHours (date1 date2 : ℤ) : ℕ :=
  (date1 - date2).natAbs / 3600000

/-- Mirrors `getTimeDifferenceInMinutes` in src/utils/timeAnalysis.ts. -/
def getTimeDifferenceInMinutes (date1 date2 : ℤ) : ℕ :=
  (date1 - date2).natAbs / 60000

/-- Mirrors `getHourOfDay` in src/utils/timeAnalysis.ts (`date-fns` `getHours`),
modelled in UTC: the hour-of-day of an epoch-millisecond timestamp. -/
def getHourOfDay (date : ℤ) : ℕ :=
  ((date.ediv 3600000).emod 24).toNat

/-- Number of logins in a list whose hour of day equals `hour`; this is
`hourCounts[hour]` in `calculateTypicalLoginHours` (0 when the key is absent). -/
def hourCount (loginHistory : List LoginAttempt) (hour : ℕ) : ℕ :=
  (loginHistory.filter (fun l => decide (getHourOfDay l.timestamp = hour))).length

/-- Mirrors `calculateTypicalLoginHours` in src/utils/timeAnalysis.ts.
An hour is kept when it has activity and its count reaches
`totalLogins * 0.1` (in JS an absent key yields `undefined >= threshold`,
which is false, hence the activity conjunct); if no hour qualifies, the
fallback returns every hour with any activity (`Object.keys` enumerates the
integer keys in ascending order, as `List.range 24` does here). -/
def calculateTypicalLoginHours (loginHistory : List LoginAttempt) : List ℕ :=
  let totalLogins := loginHistory.length
  let threshold : ℚ := (totalLogins : ℚ) * (1 / 10)
  let typicalHours := (List.range 24).filter (fun hour =>
    decide (0 < hourCount loginHistory hour) &&
      decide (threshold ≤ (hourCount loginHistory hour : ℚ)))
  if typicalHours.isEmpty then
    (List.range 24).filter (fun hour => decide (0 < hourCount loginHistory hour))
  else
    typicalHours

/-- Mirrors `isUnusualLoginTime` in src/utils/timeAnalysis.ts. -/
def isUnusualLoginTime (loginTime : ℤ) (typicalHours : List ℕ) : Bool :=
  if typicalHours.isEmpty then
    false
  else
    !(typicalHours.contains (getHourOfDay loginTime))

/-- Mirrors `getFailedAttemptsInWindow` in src/utils/timeAnalysis.ts. -/
def getFailedAttemptsInWindow (attempts : List LoginAttempt) (currentTime : ℤ)
    (windowMinutes : ℚ) : List LoginAttempt :=
  attempts.filter (fun attempt =>
    !attempt.success &&
      decide ((getTimeDifferenceInMinutes attempt.timestamp currentTime : ℚ) ≤ windowMinutes))

/-- Mirrors `calculateTravelSpeed` in src/utils/geoLocation.ts; `none` stands
for the `Infinity` returned when `timeInHours` is zero. -/
def calculateTravelSpeed (g : GeoModel) (location1 location2 : GeoLocation)
    (timeInHours : ℚ) : Option ℚ :=
  if timeInHours = 0 then
    none
  else
    some (g.calculateDistance location1 location2 / timeInHours)

/-- Mirrors `Math.round`: round half toward positive infinity. -/
def jsRound (x : ℚ) : ℤ :=
  Int.floor (x + 1 / 2)

/-- Mirrors `calculateLocationChangeRisk` in src/core/detector.ts. The source
mutates `profile.typicalLocations`; here the updated profile is returned next
to the score. -/
def calculateLocationChangeRisk (g : GeoModel) (attempt : LoginAttempt)
    (profile : UserProfile) : ℚ × UserProfile :=
  match g.getLocationFromIP attempt.ipAddress with
  | none => (0, profile)
  | some currentLocation =>
    if profile.loginHistory.length = 0 then
      (0, { profile with typicalLocations := profile.typicalLocations ++ [currentLocation] })
    else if profile.typicalLocations.any (fun loc =>
        decide (loc.country = currentLocation.country) &&
          decide (loc.city = currentLocation.city)) then
      (0, profile)
    else
      (40, { profile with typicalLocations := profile.typicalLocations ++ [currentLocation] })

/-- Mirrors `calculateImpossibleTravelRisk` in src/core/detector.ts. In the
`Infinity` case (zero elapsed hours) the source computes
`min(100, 60 + (Infinity / maxTravelSpeed - 1) * 40)`, which is 100 for every
nonnegative configured speed; negative configured speeds are outside this
model and every theorem below assumes a positive `maxTravelSpeed` where the
case matters. -/
def calculateImpossibleTravelRisk (g : GeoModel) (config : DetectorConfig)
    (attempt : LoginAttempt) (profile : UserProfile) : ℚ :=
  match profile.lastSuccessfulLogin with
  | none => 0
  | some lastLogin =>
    match g.getLocationFromIP attempt.ipAddress, g.getLocationFromIP lastLogin.ipAddress with
    | some currentLocation, some previousLocation =>
      if currentLocation.city = previousLocation.city ∧
          currentLocation.country = previousLocation.country then
        0
      else
        let timeDiff := getTimeDifferenceInHours lastLogin.timestamp attempt.timestamp
        match calculateTravelSpeed g previousLocation currentLocation (timeDiff : ℚ) with
        | none => 100
        | some requiredSpeed =>
          if requiredSpeed > config.maxTravelSpeed then
            min 100 (60 + (requiredSpeed / config.maxTravelSpeed - 1) * 40)
          else if requiredSpeed > config.maxTravelSpeed * (7 / 10) then
            30
          else
            0
    | _, _ => 0

/-- Mirrors `calculateBruteForceRisk` in src/core/detector.ts. -/
def calculateBruteForceRisk (config : DetectorConfig) (attempt : LoginAttempt)
    (profile : UserProfile) : ℚ :=
  let recentFailures := getFailedAttemptsInWindow profile.failedAttempts
    attempt.timestamp config.bruteForceWindow
  let failureCount := recentFailures.length
  if (failureCount : ℚ) ≥ config.bruteForceThreshold then
    min 100 (70 + ((failureCount : ℚ) / config.bruteForceThreshold - 1) * 30)
  else if (failureCount : ℚ) ≥ config.bruteForceThreshold * (7 / 10) then
    40
  else
    0

/-- Mirrors `calculateUnusualTimeRisk` in src/core/detector.ts; the source
stores the recomputed typical hours into the profile, so the updated profile
is returned next to the score. -/
def calculateUnusualTimeRisk (attempt : LoginAttempt)
    (profile : UserProfile) : ℚ × UserProfile :=
  let successfulLogins := profile.loginHistory.filter (fun l => l.success)
  if successfulLogins.length < 10 then
    (0, profile)
  else
    let typicalHours := calculateTypicalLoginHours successfulLogins
    let updated := { profile with typicalLoginHours := typicalHours }
    if isUnusualLoginTime attempt.timestamp typicalHours then
      (35, updated)
    else
      (0, updated)

/-- Mirrors `calculateRiskFactors` in src/core/detector.ts: the four
calculators run in object-literal order on the shared mutable profile. -/
def calculateRiskFactors (g : GeoModel) (config : DetectorConfig)
    (attempt : LoginAttempt) (profile : UserProfile) : RiskFactors × UserProfile :=
  let locationResult := calculateLocationChangeRisk g attempt profile
  let profile1 := locationResult.2
  let impossibleTravel := calculateImpossibleTravelRisk g config attempt profile1
  let bruteForce := calculateBruteForceRisk config attempt profile1
  let unusualResult := calculateUnusualTimeRisk attempt profile1
  ({ locationChange := locationResult.1
     impossibleTravel := impossibleTravel
     bruteForce := bruteForce
     unusualTime := unusualResult.1 }, unusualResult.2)

/-- Mirrors `calculateOverallRisk` in src/core/detector.ts. -/
def calculateOverallRisk (factors : RiskFactors) : ℤ :=
  let score :=
    factors.locationChange * (2 / 10) +
    factors.impossibleTravel * (4 / 10) +
    factors.bruteForce * (3 / 10) +
    factors.unusualTime * (1 / 10)
  jsRound score

/-- Mirrors `determineRiskLevel` in src/core/detector.ts. -/
def determineRiskLevel (config : DetectorConfig) (score : ℚ) : RiskLevel :=
  let thresholds := config.riskThresholds
  if score ≥ thresholds.critical then RiskLevel.critical
  else if score ≥ thresholds.high then RiskLevel.high
  else if score ≥ thresholds.medium then RiskLevel.medium
  else RiskLevel.low

/-- Mirrors `generateRecommendations` in src/core/detector.ts. -/
def generateRecommendations (factors : RiskFactors) (riskLevel : RiskLevel) : List String :=
  let recommendations : List String := []
  let recommendations := recommendations ++
    (if riskLevel = RiskLevel.critical ∨ riskLevel = RiskLevel.high then
      ["Block login attempt and require additional verification"] else [])
  let recommendations := recommendations ++
    (if factors.impossibleTravel > 50 then
      ["Send alert for impossible travel detection",
       "Require multi-factor authentication"] else [])
  let recommendations := recommendations ++
    (if factors.bruteForce > 50 then
      ["Implement temporary account lockout",
       "Alert user of potential brute force attack"] else [])
  let recommendations := recommendations ++
    (if factors.locationChange > 30 then
      ["Send notification to user about new location login"] else [])
  let recommendations := recommendations ++
    (if factors.unusualTime > 30 then
      ["Consider requiring additional verification for unusual login times"] else [])
  let recommendations := recommendations ++
    (if riskLevel = RiskLevel.medium then
      ["Monitor this user for additional suspicious activity"] else [])
  if recommendations.isEmpty then
    ["Login appears legitimate - allow access"]
  else
    recommendations

/-- One detail line of `generateDetails` in src/core/detector.ts, with the
data that the source interpolates into the string (the string rendering
itself is elided). -/
inductive Detail where
  | loginFrom (city country : String)
  | newLocationDetected (risk : ℚ)
  | impossibleTravelDetected (risk : ℚ)
  | previousLoginFrom (city country : String)
  | failedAttemptsInWindow (count : ℕ) (windowMinutes : ℚ) (risk : ℚ)
  | unusualTimeDetected (risk : ℚ)
deriving DecidableEq

/-- Mirrors `generateDetails` in src/core/detector.ts. -/
def generateDetails (g : GeoModel) (config : DetectorConfig) (attempt : LoginAttempt)
    (profile : UserProfile) (factors : RiskFactors) : List Detail :=
  let details : List Detail := []
  let details := details ++
    (match g.getLocationFromIP attempt.ipAddress with
     | some currentLocation => [Detail.loginFrom currentLocation.city currentLocation.country]
     | none => [])
  let details := details ++
    (if factors.locationChange > 0 then [Detail.newLocationDetected factors.locationChange] else [])
  let details := details ++
    (if factors.impossibleTravel > 0 then
      [Detail.impossibleTravelDetected factors.impossibleTravel] ++
        (match profile.lastSuccessfulLogin with
         | some lastLogin =>
           match g.getLocationFromIP lastLogin.ipAddress with
           | some prevLocation => [Detail.previousLoginFrom prevLocation.city prevLocation.country]
           | none => []
         | none => [])
      else [])
  let details := details ++
    (if factors.bruteForce > 0 then
      [Detail.failedAttemptsInWindow
        (getFailedAttemptsInWindow profile.failedAttempts attempt.timestamp
          config.bruteForceWindow).length
        config.bruteForceWindow factors.bruteForce]
      else [])
  let details := details ++
    (if factors.unusualTime > 0 then [Detail.unusualTimeDetected factors.unusualTime] else [])
  details

/-- Mirrors interface `RiskAssessment` in src/types/index.ts. -/
structure RiskAssessment where
  userId : String
  timestamp : ℤ
  overallRisk : ℤ
  riskLevel : RiskLevel
  factors : RiskFactors
  recommendations : List String
  details : List Detail
deriving DecidableEq

/-- The `userProfiles` map of the `SuspiciousLoginDetector` class. -/
structure DetectorState where
  userProfiles : String → Option UserProfile

/-- The fresh profile created by `getUserProfile` in src/core/detector.ts
when the map has no entry for the user. -/
def emptyProfile (userId : String) : UserProfile :=
  { userId := userId
    loginHistory := []
    typicalLocations := []
    typicalLoginHours := []
    lastSuccessfulLogin := none
    failedAttempts := [] }

/-- Mirrors `getUserProfile` in src/core/detector.ts. In the source the fresh
profile is also inserted into the map; since `analyzeLogin` always stores the
final mutated profile under the same key, the net state transition is the one
modelled in `analyzeLogin` below. -/
def getUserProfile (state : DetectorState) (userId : String) : UserProfile :=
  (state.userProfiles userId).getD (emptyProfile userId)

/-- Mirrors `analyzeLogin` in src/core/detector.ts: the attempt is appended to
the history (and to `failedAttempts`, or stored as `lastSuccessfulLogin`)
before the calculators run; the calculators further mutate the profile; the
assessment is built from the resulting factors. -/
def analyzeLogin (g : GeoModel) (config : DetectorConfig) (state : DetectorState)
    (attempt : LoginAttempt) : RiskAssessment × DetectorState :=
  let profile0 := getUserProfile state attempt.userId
  let profile1 := { profile0 with loginHistory := profile0.loginHistory ++ [attempt] }
  let profile2 :=
    if attempt.success then
      { profile1 with lastSuccessfulLogin := some attempt }
    else
      { profile1 with failedAttempts := profile1.failedAttempts ++ [attempt] }
  let result := calculateRiskFactors g config attempt profile2
  let factors := result.1
  let finalProfile := result.2
  let overallRisk := calculateOverallRisk factors
  let riskLevel := determineRiskLevel config (overallRisk : ℚ)
  ({ userId := attempt.userId
     timestamp := attempt.timestamp
     overallRisk := overallRisk
     riskLevel := riskLevel
     factors := factors
     recommendations := generateRecommendations factors riskLevel
     details := generateDetails g config attempt finalProfile factors },
   { userProfiles := fun u =>
      if u = attempt.userId then some finalProfile else state.userProfiles u })

/-- A detector with no profiles yet, as built by the class constructor. -/
def initialState : DetectorState :=
  { userProfiles := fun _ => none }

/-- The (country, city) deduplication property of `typicalLocations`. -/
def noDupLocations (locations : List GeoLocation) : Prop :=
  locations.Pairwise (fun a b => ¬(a.country = b.country ∧ a.city = b.city))

/-- Replace only the `low` risk threshold of a configuration. -/
def setLowThreshold (config : DetectorConfig) (v : ℚ) : DetectorConfig :=
  { config with riskThresholds := { config.riskThresholds with low := v } }

/-- Test fixture: a New York location, standing for what `geoip-lite`
resolves for 8.8.8.8 in the sample data. -/
def newYork : GeoLocation :=
  { country := "US", region := "NY", city := "New York", latitude := 40, longitude := -74 }

/-- Test fixture: a Tokyo location, standing for what `geoip-lite`
resolves for 133.130.96.1 in the sample data. -/
def tokyo : GeoLocation :=
  { country := "JP", region := "13", city := "Tokyo", latitude := 35, longitude := 139 }

/-- Test fixture standing for the external geo collaborators: a two-entry IP
database and a constant 10850 km distance (the approximate New York to Tokyo
Haversine distance). Used only to instantiate theorems at concrete inputs. -/
def sampleGeo : GeoModel :=
  { getLocationFromIP := fun ip =>
      if ip = "8.8.8.8" then some newYork
      else if ip = "133.130.96.1" then some tokyo
      else none
    calculateDistance := fun _ _ => 10850 }

/-- Test fixture: a successful login from a resolvable address. -/
def aliceAttempt : LoginAttempt :=
  { userId := "alice", timestamp := 0, ipAddress := "8.8.8.8", success := true }

/-- Test fixture: a successful New York login at time 0. -/
def bobSuccessNY : LoginAttempt :=
  { userId := "bob", timestamp := 0, ipAddress := "8.8.8.8", success := true }

/-- Test fixture: a profile whose last success is the New York login. -/
def bobProfile : UserProfile :=
  { emptyProfile "bob" with
    loginHistory := [bobSuccessNY]
    lastSuccessfulLogin := some bobSuccessNY }

/-- Test fixture: a failed Tokyo login two hours after the New York success. -/
def bobTokyoFail : LoginAttempt :=
  { userId := "bob", timestamp := 7200000, ipAddress := "133.130.96.1", success := false }

/-- Test fixture: the k-th failed login of a brute-force burst, one minute
apart. -/
def eveFail (k : ℕ) : LoginAttempt :=
  { userId := "eve", timestamp := (k : ℤ) * 60000, ipAddress := "8.8.8.8", success := false }

/-- Test fixture: detector state after analyzing four failed attempts. -/
def c3State : DetectorState :=
  ((List.range 4).map eveFail).foldl
    (fun st a => (analyzeLogin sampleGeo defaultConfig st a).2) initialState

/-- Test fixture: the k-th of ten successful logins, each at hour 10 UTC on
consecutive days. -/
def danaLogin (k : ℕ) : LoginAttempt :=
  { userId := "dana", timestamp := (10 + 24 * (k : ℤ)) * 3600000,
    ipAddress := "8.8.8.8", success := true }

/-- Test fixture: detector state after the ten hour-10 logins. -/
def danaState : DetectorState :=
  ((List.range 10).map danaLogin).foldl
    (fun st a => (analyzeLogin sampleGeo defaultConfig st a).2) initialState

/-- Test fixture: an eleventh login at hour 3 UTC. -/
def danaNightAttempt : LoginAttempt :=
  { userId := "dana", timestamp := (3 + 24 * 10) * 3600000,
    ipAddress := "8.8.8.8", success := true }

/-- The failed-attempt list of the analyzed user at the moment the brute-force
calculator runs: `analyzeLogin` has already appended the current attempt when
it is a failure. -/
def failedAttemptsAfterUpdate (state : DetectorState) (attempt : LoginAttempt) :
    List LoginAttempt :=
  (getUserProfile state attempt.userId).failedAttempts ++
    (if attempt.success then [] else [attempt])

/-- The number of recent failures the brute-force calculator counts. -/
def bruteForceCount (config : DetectorConfig) (state : DetectorState)
    (attempt : LoginAttempt) : ℕ :=
  (getFailedAttemptsInWindow (failedAttemptsAfterUpdate state attempt)
    attempt.timestamp config.bruteForceWindow).length

/-- The successful logins in the history of the analyzed user at the moment the
unusual-time calculator runs: the current attempt has already been appended
to `loginHistory`. -/
def successfulLoginsAfterUpdate (state : DetectorState) (attempt : LoginAttempt) :
    List LoginAttempt :=
  ((getUserProfile state attempt.userId).loginHistory ++ [attempt]).filter
    (fun l => l.success)

/- ------------------------------------------------------------------ -/
/- Helper lemmas: which profile fields each calculator leaves intact. -/
/- ------------------------------------------------------------------ -/

@[simp]
theorem locationChangeRisk_snd_loginHistory (g : GeoModel) (a : LoginAttempt)
    (p : UserProfile) :
    ((calculateLocationChangeRisk g a p).2).loginHistory = p.loginHistory := by
  unfold calculateLocationChangeRisk
  cases g.getLocationFromIP a.ipAddress
  · rfl
  · dsimp only
    split
    · rfl
    · split <;> rfl

@[simp]
theorem locationChangeRisk_snd_failedAttempts (g : GeoModel) (a : LoginAttempt)
    (p : UserProfile) :
    ((calculateLocationChangeRisk g a p).2).failedAttempts = p.failedAttempts := by
  unfold calculateLocationChangeRisk
  cases g.getLocationFromIP a.ipAddress
  · rfl
  · dsimp only
    split
    · rfl
    · split <;> rfl

@[simp]
theorem locationChangeRisk_snd_lastSuccessfulLogin (g : GeoModel) (a : LoginAttempt)
    (p : UserProfile) :
    ((calculateLocationChangeRisk g a p).2).lastSuccessfulLogin = p.lastSuccessfulLogin := by
  unfold calculateLocationChangeRisk
  cases g.getLocationFromIP a.ipAddress
  · rfl
  · dsimp only
    split
    · rfl
    · split <;> rfl

@[simp]
theorem unusualTimeRisk_snd_typicalLocations (a : LoginAttempt) (p : UserProfile) :
    ((calculateUnusualTimeRisk a p).2).typicalLocations = p.typicalLocations := by
  unfold calculateUnusualTimeRisk
  dsimp only
  split
  · rfl
  · split <;> rfl

/- ------------------------------------------------------------------ -/
/- Claim theorems.                                                    -/
/- ------------------------------------------------------------------ -/

/-- C1 (divergence from the claim): for the first attempt ever analyzed for a
user, when the IP resolves, `analyzeLogin` returns a `locationChange` factor
of 40, not the 0 the claim states, although the resolved location is indeed
recorded in `typicalLocations`. The attempt is appended to `loginHistory`
before `calculateLocationChangeRisk` runs, so the cold-start branch guarded
by `loginHistory.length === 0` (commented "First login from this user" in the
source) is unreachable. -/
theorem C1_first_analyzed_login_scores_forty (g : GeoModel) (config : DetectorConfig)
    (state : DetectorState) (attempt : LoginAttempt) (loc : GeoLocation)
    (hfresh : state.userProfiles attempt.userId = none)
    (hres : g.getLocationFromIP attempt.ipAddress = some loc) :
    (analyzeLogin g config state attempt).1.factors.locationChange = 40 ∧
    loc ∈ (getUserProfile (analyzeLogin g config state attempt).2
      attempt.userId).typicalLocations := by
  cases hs : attempt.success <;>
    simp [analyzeLogin, calculateRiskFactors, getUserProfile, hfresh, emptyProfile, hs,
      calculateLocationChangeRisk, hres]

/-- C1 witness: a concrete first login from a resolvable address scores 40. -/
theorem C1_first_analyzed_login_scores_forty_witness :
    (initialState.userProfiles aliceAttempt.userId = none ∧
      sampleGeo.getLocationFromIP aliceAttempt.ipAddress = some newYork) ∧
    ((analyzeLogin sampleGeo defaultConfig initialState aliceAttempt).1.factors.locationChange = 40 ∧
      newYork ∈ (getUserProfile (analyzeLogin sampleGeo defaultConfig initialState aliceAttempt).2
        aliceAttempt.userId).typicalLocations) :=
  ⟨⟨rfl, by decide⟩,
    C1_first_analyzed_login_scores_forty sampleGeo defaultConfig initialState aliceAttempt
      newYork rfl (by decide)⟩

/-- C2: with an existing last successful login, both addresses resolving, and
the two locations differing on (country, city), the impossible-travel factor
follows the claimed formula: elapsed hours are the absolute timestamp
difference (in whole hours), the required speed is distance over elapsed
hours, and the factor is min(100, 60 + (speed/maxTravelSpeed - 1)*40) when
the speed exceeds maxTravelSpeed, 30 when it exceeds 0.7*maxTravelSpeed, and
0 otherwise. -/
theorem C2_impossible_travel_formula (g : GeoModel) (config : DetectorConfig)
    (attempt lastLogin : LoginAttempt) (profile : UserProfile)
    (currentLocation previousLocation : GeoLocation)
    (hlast : profile.lastSuccessfulLogin = some lastLogin)
    (hcur : g.getLocationFromIP attempt.ipAddress = some currentLocation)
    (hprev : g.getLocationFromIP lastLogin.ipAddress = some previousLocation)
    (hdiff : ¬(currentLocation.city = previousLocation.city ∧
      currentLocation.country = previousLocation.country))
    (hpos : getTimeDifferenceInHours lastLogin.timestamp attempt.timestamp ≠ 0) :
    calculateImpossibleTravelRisk g config attempt profile =
      (if g.calculateDistance previousLocation currentLocation /
            (getTimeDifferenceInHours lastLogin.timestamp attempt.timestamp : ℚ) >
          config.maxTravelSpeed then
        min 100 (60 + (g.calculateDistance previousLocation currentLocation /
            (getTimeDifferenceInHours lastLogin.timestamp attempt.timestamp : ℚ) /
            config.maxTravelSpeed - 1) * 40)
      else if g.calculateDistance previousLocation currentLocation /
            (getTimeDifferenceInHours lastLogin.timestamp attempt.timestamp : ℚ) >
          config.maxTravelSpeed * (7 / 10) then
        30
      else
        0) := by
  unfold calculateImpossibleTravelRisk calculateTravelSpeed
  rw [hlast]
  dsimp only
  rw [hcur, hprev]
  dsimp only
  rw [if_neg hdiff, if_neg (by exact_mod_cast hpos)]

/-- C2 witness: New York success at time 0, failed Tokyo attempt two hours
later, 10850 km apart: required speed 5425 km/h against the 900 km/h default
limit saturates the factor at 100. -/
theorem C2_impossible_travel_formula_witness :
    calculateImpossibleTravelRisk sampleGeo defaultConfig bobTokyoFail bobProfile = 100 := by
  have h := C2_impossible_travel_formula sampleGeo defaultConfig bobTokyoFail bobSuccessNY
    bobProfile tokyo newYork rfl (by decide) (by decide) (by decide) (by decide)
  rw [h]
  with_unfolding_all decide

/-- C5: the overall risk is the rounded weighted sum
0.2*locationChange + 0.4*impossibleTravel + 0.3*bruteForce + 0.1*unusualTime,
and the factor vector (20, 0, 0, 0) yields 4. -/
theorem C5_overall_risk_weighted_round :
    (∀ factors : RiskFactors,
      calculateOverallRisk factors =
        round ((2 / 10) * factors.locationChange + (4 / 10) * factors.impossibleTravel +
          (3 / 10) * factors.bruteForce + (1 / 10) * factors.unusualTime)) ∧
    calculateOverallRisk
      { locationChange := 20, impossibleTravel := 0, bruteForce := 0, unusualTime := 0 } = 4 := by
  constructor
  · intro f
    simp only [calculateOverallRisk, jsRound, round_eq]
    congr 1
    ring
  · with_unfolding_all decide

/-- C7: with strictly increasing thresholds, the risk level is computed by
checking the thresholds from highest to lowest, depends only on the
thresholds and the score, and is monotone non-decreasing in the score under
the rank low < medium < high < critical. -/
theorem C7_risk_level_monotone (config : DetectorConfig)
    (hinc : config.riskThresholds.low < config.riskThresholds.medium ∧
      config.riskThresholds.medium < config.riskThresholds.high ∧
      config.riskThresholds.high < config.riskThresholds.critical) :
    (∀ score : ℚ, determineRiskLevel config score =
      if config.riskThresholds.critical ≤ score then RiskLevel.critical
      else if config.riskThresholds.high ≤ score then RiskLevel.high
      else if config.riskThresholds.medium ≤ score then RiskLevel.medium
      else RiskLevel.low) ∧
    (∀ config2 : DetectorConfig, config2.riskThresholds = config.riskThresholds →
      ∀ score : ℚ, determineRiskLevel config2 score = determineRiskLevel config score) ∧
    (∀ s t : ℚ, s ≤ t →
      (determineRiskLevel config s).rank ≤ (determineRiskLevel config t).rank) := by
  refine ⟨fun score => rfl,
    fun config2 h score => by simp only [determineRiskLevel, h],
    fun s t hst => ?_⟩
  simp only [determineRiskLevel]
  split_ifs <;> simp [RiskLevel.rank] <;> linarith

/-- C7 witness: the default thresholds are strictly increasing, and the level
rank at score 40 is at most the level rank at score 60. -/
theorem C7_risk_level_monotone_witness :
    (defaultConfig.riskThresholds.low < defaultConfig.riskThresholds.medium ∧
      defaultConfig.riskThresholds.medium < defaultConfig.riskThresholds.high ∧
      defaultConfig.riskThresholds.high < defaultConfig.riskThresholds.critical) ∧
    (determineRiskLevel defaultConfig 40).rank ≤ (determineRiskLevel defaultConfig 60).rank :=
  ⟨by decide, (C7_risk_level_monotone defaultConfig (by decide)).2.2 40 60 (by norm_num)⟩

/-- C8: analyzing the identical attempt twice from a fresh detector yields two
different assessments: the first call records the new location (and scores
locationChange 40), so the second call sees it as typical and scores 0. -/
theorem C8_analyze_login_not_idempotent :
    (analyzeLogin sampleGeo defaultConfig initialState aliceAttempt).1.factors.locationChange = 40 ∧
    (analyzeLogin sampleGeo defaultConfig
      (analyzeLogin sampleGeo defaultConfig initialState aliceAttempt).2
      aliceAttempt).1.factors.locationChange = 0 ∧
    (analyzeLogin sampleGeo defaultConfig initialState aliceAttempt).1 ≠
      (analyzeLogin sampleGeo defaultConfig
        (analyzeLogin sampleGeo defaultConfig initialState aliceAttempt).2
        aliceAttempt).1 := by
  with_unfolding_all decide

/-- C10: the low threshold is never consulted: changing only
`riskThresholds.low` changes neither the risk level of any score nor the
assessment or state produced by `analyzeLogin` for any attempt. -/
theorem C10_low_threshold_never_consulted (config : DetectorConfig) (v : ℚ) :
    (∀ score : ℚ,
      determineRiskLevel (setLowThreshold config v) score = determineRiskLevel config score) ∧
    (∀ (g : GeoModel) (state : DetectorState) (attempt : LoginAttempt),
      analyzeLogin g (setLowThreshold config v) state attempt =
        analyzeLogin g config state attempt) :=
  ⟨fun _ => rfl, fun _ _ _ => rfl⟩

/-- C3: the brute-force factor is the claimed scaled function of the number of
failed attempts within the window around the current timestamp; membership in
the counted window is exactly failure plus an absolute time distance of at
most `bruteForceWindow` minutes; and a failing current attempt is itself part
of the counted list (it is appended to `failedAttempts` before counting). -/
theorem C3_brute_force_formula (g : GeoModel) (config : DetectorConfig)
    (state : DetectorState) (attempt : LoginAttempt) :
    ((analyzeLogin g config state attempt).1.factors.bruteForce =
      if (bruteForceCount config state attempt : ℚ) ≥ config.bruteForceThreshold then
        min 100 (70 + ((bruteForceCount config state attempt : ℚ) /
          config.bruteForceThreshold - 1) * 30)
      else if (bruteForceCount config state attempt : ℚ) ≥
          config.bruteForceThreshold * (7 / 10) then
        40
      else
        0) ∧
    (∀ (attempts : List LoginAttempt) (x : LoginAttempt) (t : ℤ) (w : ℚ),
      x ∈ getFailedAttemptsInWindow attempts t w ↔
        (x ∈ attempts ∧ x.success = false ∧
          (getTimeDifferenceInMinutes x.timestamp t : ℚ) ≤ w)) ∧
    (attempt.success = false → 0 ≤ config.bruteForceWindow →
      attempt ∈ getFailedAttemptsInWindow (failedAttemptsAfterUpdate state attempt)
        attempt.timestamp config.bruteForceWindow) := by
  refine ⟨?_, ?_, ?_⟩
  · cases hs : attempt.success <;>
      simp [analyzeLogin, calculateRiskFactors, calculateBruteForceRisk,
        bruteForceCount, failedAttemptsAfterUpdate, hs]
  · intro attempts x t w
    simp [getFailedAttemptsInWindow, List.mem_filter, Bool.not_eq_true', and_assoc]
  · intro hf hw
    simp [getFailedAttemptsInWindow, List.mem_filter, failedAttemptsAfterUpdate, hf,
      getTimeDifferenceInMinutes, hw]

/-- C3 witness: after four failed attempts, a fifth failure one minute later
is itself counted; with the default threshold of 5 the factor is exactly 70. -/
theorem C3_brute_force_formula_witness :
    eveFail 4 ∈ getFailedAttemptsInWindow (failedAttemptsAfterUpdate c3State (eveFail 4))
      (eveFail 4).timestamp defaultConfig.bruteForceWindow ∧
    (analyzeLogin sampleGeo defaultConfig c3State (eveFail 4)).1.factors.bruteForce = 70 := by
  have h := C3_brute_force_formula sampleGeo defaultConfig c3State (eveFail 4)
  refine ⟨h.2.2 (by decide) (by norm_num [defaultConfig]), ?_⟩
  rw [h.1]
  with_unfolding_all decide

/-- Helper: `calculateLocationChangeRisk` keeps `typicalLocations` free of
(country, city) duplicates whenever the profile already has login history. -/
theorem locationChangeRisk_preserves_noDup (g : GeoModel) (a : LoginAttempt)
    (p : UserProfile) (hne : p.loginHistory ≠ [])
    (h : noDupLocations p.typicalLocations) :
    noDupLocations ((calculateLocationChangeRisk g a p).2.typicalLocations) := by
  unfold calculateLocationChangeRisk
  cases hres : g.getLocationFromIP a.ipAddress
  · exact h
  case some cur =>
    dsimp only
    rw [if_neg (by simpa [List.length_eq_zero] using hne)]
    split
    · exact h
    case isFalse hany =>
      simp only [List.any_eq_true, Bool.and_eq_true, decide_eq_true_eq, not_exists,
        not_and] at hany
      unfold noDupLocations at h ⊢
      dsimp only
      rw [List.pairwise_append]
      refine ⟨h, List.pairwise_singleton _ _, ?_⟩
      intro x hx y hy
      rw [List.mem_singleton] at hy
      subst hy
      intro hcont
      exact hany x hx hcont.1 hcont.2

/-- Helper: the profile returned by `calculateRiskFactors` has the
`typicalLocations` produced by the location-change step. -/
@[simp]
theorem riskFactors_snd_typicalLocations (g : GeoModel) (config : DetectorConfig)
    (a : LoginAttempt) (p : UserProfile) :
    ((calculateRiskFactors g config a p).2).typicalLocations =
      ((calculateLocationChangeRisk g a p).2).typicalLocations := by
  simp [calculateRiskFactors]

/-- C9: any profile whose `typicalLocations` has no two entries with the same
(country, city) still has that property after any `analyzeLogin` call. -/
theorem C9_typical_locations_nodup_preserved (g : GeoModel) (config : DetectorConfig)
    (state : DetectorState) (attempt : LoginAttempt) (u : String)
    (h : noDupLocations ((getUserProfile state u).typicalLocations)) :
    noDupLocations ((getUserProfile (analyzeLogin g config state attempt).2
      u).typicalLocations) := by
  by_cases hu : u = attempt.userId
  · subst hu
    cases hs : attempt.success <;>
      · simp only [analyzeLogin, getUserProfile, hs, if_true, if_false, if_pos rfl,
          Option.getD_some, riskFactors_snd_typicalLocations,
          unusualTimeRisk_snd_typicalLocations]
        apply locationChangeRisk_preserves_noDup
        · simp
        · simpa [getUserProfile] using h
  · simpa [analyzeLogin, getUserProfile, hu] using h

/-- C9 witness: a concrete instance on the empty profile. -/
theorem C9_typical_locations_nodup_preserved_witness :
    noDupLocations ((getUserProfile (analyzeLogin sampleGeo defaultConfig initialState
      aliceAttempt).2 "alice").typicalLocations) :=
  C9_typical_locations_nodup_preserved sampleGeo defaultConfig initialState aliceAttempt
    "alice" List.Pairwise.nil

/-- Helper: the location-change factor is 0 or 40, hence within [0, 100]. -/
theorem locationChangeRisk_fst_bounds (g : GeoModel) (a : LoginAttempt)
    (p : UserProfile) :
    0 ≤ (calculateLocationChangeRisk g a p).1 ∧
      (calculateLocationChangeRisk g a p).1 ≤ 100 := by
  unfold calculateLocationChangeRisk
  cases g.getLocationFromIP a.ipAddress
  · norm_num
  · dsimp only
    split
    · norm_num
    · split <;> norm_num

/-- Helper: the impossible-travel factor lies in [0, 100] for a positive
configured speed limit and a nonnegative distance function. -/
theorem impossibleTravelRisk_bounds (g : GeoModel) (config : DetectorConfig)
    (a : LoginAttempt) (p : UserProfile)
    (hmax : 0 < config.maxTravelSpeed) :
    0 ≤ calculateImpossibleTravelRisk g config a p ∧
      calculateImpossibleTravelRisk g config a p ≤ 100 := by
  unfold calculateImpossibleTravelRisk
  cases hl : p.lastSuccessfulLogin
  · norm_num
  next lastLogin =>
    dsimp only
    cases hc : g.getLocationFromIP a.ipAddress
    · norm_num
    next cur =>
      cases hp : g.getLocationFromIP lastLogin.ipAddress
      · norm_num
      next prev =>
        dsimp only
        split
        · norm_num
        · cases hts : calculateTravelSpeed g prev cur
            ((getTimeDifferenceInHours lastLogin.timestamp a.timestamp : ℕ) : ℚ)
          · norm_num
          next requiredSpeed =>
            dsimp only
            split
            next hgt =>
              have hr : 1 < requiredSpeed / config.maxTravelSpeed :=
                (one_lt_div hmax).mpr hgt
              constructor
              · exact le_min (by norm_num) (by nlinarith)
              · exact min_le_left _ _
            next =>
              split <;> norm_num

/-- Helper: the brute-force factor lies in [0, 100] for a positive threshold. -/
theorem bruteForceRisk_bounds (config : DetectorConfig) (a : LoginAttempt)
    (p : UserProfile) (hthr : 0 < config.bruteForceThreshold) :
    0 ≤ calculateBruteForceRisk config a p ∧
      calculateBruteForceRisk config a p ≤ 100 := by
  unfold calculateBruteForceRisk
  dsimp only
  split
  case isTrue hge =>
    have hr : 1 ≤ ((getFailedAttemptsInWindow p.failedAttempts a.timestamp
        config.bruteForceWindow).length : ℚ) / config.bruteForceThreshold :=
      (one_le_div hthr).mpr hge
    constructor
    · exact le_min (by norm_num) (by nlinarith)
    · exact min_le_left _ _
  · split <;> norm_num

/-- Helper: the unusual-time factor is 0 or 35, hence within [0, 100]. -/
theorem unusualTimeRisk_fst_bounds (a : LoginAttempt) (p : UserProfile) :
    0 ≤ (calculateUnusualTimeRisk a p).1 ∧ (calculateUnusualTimeRisk a p).1 ≤ 100 := by
  unfold calculateUnusualTimeRisk
  dsimp only
  split
  · norm_num
  · split <;> norm_num

/-- Helper: all four factors produced by `calculateRiskFactors` lie in
[0, 100] under realistic configuration assumptions. -/
theorem riskFactors_bounds (g : GeoModel) (config : DetectorConfig)
    (a : LoginAttempt) (p : UserProfile)
    (hmax : 0 < config.maxTravelSpeed) (hthr : 0 < config.bruteForceThreshold) :
    (0 ≤ (calculateRiskFactors g config a p).1.locationChange ∧
      (calculateRiskFactors g config a p).1.locationChange ≤ 100) ∧
    (0 ≤ (calculateRiskFactors g config a p).1.impossibleTravel ∧
      (calculateRiskFactors g config a p).1.impossibleTravel ≤ 100) ∧
    (0 ≤ (calculateRiskFactors g config a p).1.bruteForce ∧
      (calculateRiskFactors g config a p).1.bruteForce ≤ 100) ∧
    (0 ≤ (calculateRiskFactors g config a p).1.unusualTime ∧
      (calculateRiskFactors g config a p).1.unusualTime ≤ 100) := by
  unfold calculateRiskFactors
  dsimp only
  exact ⟨locationChangeRisk_fst_bounds g a p,
    impossibleTravelRisk_bounds g config a _ hmax,
    bruteForceRisk_bounds config a _ hthr,
    unusualTimeRisk_fst_bounds a _⟩

/-- Helper: `jsRound` maps [0, 100] into the integers 0 through 100. -/
theorem jsRound_bounds (x : ℚ) (h0 : 0 ≤ x) (h1 : x ≤ 100) :
    0 ≤ jsRound x ∧ jsRound x ≤ 100 := by
  unfold jsRound
  constructor
  · exact Int.le_floor.mpr (by push_cast; linarith)
  · have h2 : (x + 1 / 2 : ℚ) < 101 := by linarith
    exact Int.lt_add_one_iff.mp (Int.floor_lt.mpr (by push_cast; linarith))

/-- Helper: the overall risk of a factor vector with all components in
[0, 100] lies in [0, 100]. -/
theorem calculateOverallRisk_bounds (f : RiskFactors)
    (h : (0 ≤ f.locationChange ∧ f.locationChange ≤ 100) ∧
      (0 ≤ f.impossibleTravel ∧ f.impossibleTravel ≤ 100) ∧
      (0 ≤ f.bruteForce ∧ f.bruteForce ≤ 100) ∧
      (0 ≤ f.unusualTime ∧ f.unusualTime ≤ 100)) :
    0 ≤ calculateOverallRisk f ∧ calculateOverallRisk f ≤ 100 := by
  obtain ⟨h1, h2, h3, h4⟩ := h
  unfold calculateOverallRisk
  exact jsRound_bounds _ (by nlinarith [h1.1, h2.1, h3.1, h4.1])
    (by nlinarith [h1.2, h2.2, h3.2, h4.2])

/-- C6: for any attempt analyzed under a positive speed limit, a positive
brute-force threshold and a nonnegative distance function, the overall risk
is an integer in [0, 100], and each of the four factors lies in [0, 100]. -/
theorem C6_overall_risk_in_range (g : GeoModel) (config : DetectorConfig)
    (state : DetectorState) (attempt : LoginAttempt)
    (hmax : 0 < config.maxTravelSpeed) (hthr : 0 < config.bruteForceThreshold) :
    (0 ≤ (analyzeLogin g config state attempt).1.overallRisk ∧
      (analyzeLogin g config state attempt).1.overallRisk ≤ 100) ∧
    ((0 ≤ (analyzeLogin g config state attempt).1.factors.locationChange ∧
      (analyzeLogin g config state attempt).1.factors.locationChange ≤ 100) ∧
    (0 ≤ (analyzeLogin g config state attempt).1.factors.impossibleTravel ∧
      (analyzeLogin g config state attempt).1.factors.impossibleTravel ≤ 100) ∧
    (0 ≤ (analyzeLogin g config state attempt).1.factors.bruteForce ∧
      (analyzeLogin g config state attempt).1.factors.bruteForce ≤ 100) ∧
    (0 ≤ (analyzeLogin g config state attempt).1.factors.unusualTime ∧
      (analyzeLogin g config state attempt).1.factors.unusualTime ≤ 100)) := by
  have hb := riskFactors_bounds g config attempt
    (if attempt.success then
      { getUserProfile state attempt.userId with
        loginHistory := (getUserProfile state attempt.userId).loginHistory ++ [attempt]
        lastSuccessfulLogin := some attempt }
    else
      { getUserProfile state attempt.userId with
        loginHistory := (getUserProfile state attempt.userId).loginHistory ++ [attempt]
        failedAttempts := (getUserProfile state attempt.userId).failedAttempts ++ [attempt] })
    hmax hthr
  exact ⟨calculateOverallRisk_bounds _ hb, hb⟩

/-- C6 witness: a concrete analyzed attempt under the default configuration
has its overall risk in [0, 100]. -/
theorem C6_overall_risk_in_range_witness :
    0 ≤ (analyzeLogin sampleGeo defaultConfig initialState aliceAttempt).1.overallRisk ∧
      (analyzeLogin sampleGeo defaultConfig initialState aliceAttempt).1.overallRisk ≤ 100 :=
  (C6_overall_risk_in_range sampleGeo defaultConfig initialState aliceAttempt
    (by norm_num [defaultConfig]) (by norm_num [defaultConfig])).1

/-- Helper: an hour of day is always below 24. -/
theorem getHourOfDay_lt (t : ℤ) : getHourOfDay t < 24 := by
  unfold getHourOfDay
  have h2 : (t.ediv 3600000).emod 24 < 24 := Int.emod_lt_of_pos _ (by norm_num)
  omega

/-- Helper: membership in the typical-hours list computed by
`calculateTypicalLoginHours`: an hour below 24 with activity whose count
reaches 10 percent of the logins, or, when no hour reaches that bar, any hour
below 24 with activity. -/
theorem mem_calculateTypicalLoginHours (logins : List LoginAttempt) (hour : ℕ) :
    hour ∈ calculateTypicalLoginHours logins ↔
      (hour < 24 ∧ 0 < hourCount logins hour ∧
        (((logins.length : ℚ) * (1 / 10) ≤ (hourCount logins hour : ℚ)) ∨
          (∀ h2, h2 < 24 → ¬(0 < hourCount logins h2 ∧
            ((logins.length : ℚ) * (1 / 10) ≤ (hourCount logins h2 : ℚ)))))) := by
  unfold calculateTypicalLoginHours
  dsimp only
  split
  next hemp =>
    rw [List.isEmpty_iff] at hemp
    have hall : ∀ h2, h2 < 24 → ¬(0 < hourCount logins h2 ∧
        ((logins.length : ℚ) * (1 / 10) ≤ (hourCount logins h2 : ℚ))) := by
      intro h2 hh2 hcon
      have hmem : h2 ∈ (List.range 24).filter (fun hour =>
          decide (0 < hourCount logins hour) &&
            decide ((logins.length : ℚ) * (1 / 10) ≤ (hourCount logins hour : ℚ))) := by
        rw [List.mem_filter]
        refine ⟨List.mem_range.mpr hh2, ?_⟩
        simp only [Bool.and_eq_true, decide_eq_true_eq]
        exact ⟨hcon.1, hcon.2⟩
      rw [hemp] at hmem
      simp at hmem
    constructor
    · intro hmem
      rw [List.mem_filter] at hmem
      simp only [decide_eq_true_eq] at hmem
      exact ⟨List.mem_range.mp hmem.1, hmem.2, Or.inr hall⟩
    · rintro ⟨hlt, hpos, _⟩
      rw [List.mem_filter]
      exact ⟨List.mem_range.mpr hlt, by simp [hpos]⟩
  next hemp =>
    have hne : (List.range 24).filter (fun hour =>
        decide (0 < hourCount logins hour) &&
          decide ((logins.length : ℚ) * (1 / 10) ≤ (hourCount logins hour : ℚ))) ≠ [] := by
      intro hnil
      exact hemp (by rw [hnil]; rfl)
    constructor
    · intro hmem
      rw [List.mem_filter] at hmem
      simp only [Bool.and_eq_true, decide_eq_true_eq] at hmem
      exact ⟨List.mem_range.mp hmem.1, hmem.2.1, Or.inl hmem.2.2⟩
    · rintro ⟨hlt, hpos, hdisj⟩
      rw [List.mem_filter]
      refine ⟨List.mem_range.mpr hlt, ?_⟩
      simp only [Bool.and_eq_true, decide_eq_true_eq]
      refine ⟨hpos, ?_⟩
      rcases hdisj with h | hall
      · exact h
      · exfalso
        obtain ⟨x, hx⟩ := List.exists_mem_of_ne_nil _ hne
        rw [List.mem_filter] at hx
        simp only [Bool.and_eq_true, decide_eq_true_eq] at hx
        exact hall x (List.mem_range.mp hx.1) ⟨hx.2.1, hx.2.2⟩

/-- Helper: on a nonempty login list, the typical-hours list is nonempty. -/
theorem calculateTypicalLoginHours_ne_nil (logins : List LoginAttempt)
    (hne : logins ≠ []) : calculateTypicalLoginHours logins ≠ [] := by
  intro hnil
  obtain ⟨l, hl⟩ := List.exists_mem_of_ne_nil logins hne
  have hcnt : 0 < hourCount logins (getHourOfDay l.timestamp) := by
    unfold hourCount
    rw [List.length_pos]
    intro hf
    have hmem : l ∈ logins.filter (fun x =>
        decide (getHourOfDay x.timestamp = getHourOfDay l.timestamp)) := by
      rw [List.mem_filter]
      exact ⟨hl, by simp⟩
    rw [hf] at hmem
    simp at hmem
  by_cases hq : ∃ h2, h2 < 24 ∧ 0 < hourCount logins h2 ∧
      (logins.length : ℚ) * (1 / 10) ≤ (hourCount logins h2 : ℚ)
  · obtain ⟨h2, hh⟩ := hq
    have hmem := (mem_calculateTypicalLoginHours logins h2).mpr
      ⟨hh.1, hh.2.1, Or.inl hh.2.2⟩
    rw [hnil] at hmem
    simp at hmem
  · have hall : ∀ h2, h2 < 24 → ¬(0 < hourCount logins h2 ∧
        ((logins.length : ℚ) * (1 / 10) ≤ (hourCount logins h2 : ℚ))) := by
      intro h2 hh2 hcon
      exact hq ⟨h2, hh2, hcon.1, hcon.2⟩
    have hmem := (mem_calculateTypicalLoginHours logins (getHourOfDay l.timestamp)).mpr
      ⟨getHourOfDay_lt _, hcnt, Or.inr hall⟩
    rw [hnil] at hmem
    simp at hmem

/-- Helper: the unusual-time factor of an analyzed attempt, expressed through
the successful logins of the updated history. -/
theorem analyzeLogin_unusualTime (g : GeoModel) (config : DetectorConfig)
    (state : DetectorState) (attempt : LoginAttempt) :
    (analyzeLogin g config state attempt).1.factors.unusualTime =
      (if (successfulLoginsAfterUpdate state attempt).length < 10 then 0
       else if isUnusualLoginTime attempt.timestamp
          (calculateTypicalLoginHours (successfulLoginsAfterUpdate state attempt)) then 35
       else 0) := by
  cases hs : attempt.success <;>
    simp [analyzeLogin, calculateRiskFactors, calculateUnusualTimeRisk, hs,
      successfulLoginsAfterUpdate, apply_ite Prod.fst]

/-- Helper: on a nonempty typical-hours list, unusualness is exactly
non-membership of the hour of day. -/
theorem isUnusualLoginTime_eq (t : ℤ) (l : List ℕ) (h : l ≠ []) :
    isUnusualLoginTime t l = !(l.contains (getHourOfDay t)) := by
  unfold isUnusualLoginTime
  rw [if_neg]
  simpa [List.isEmpty_iff] using h

/-- C4: the unusual-time factor is 0 when fewer than 10 successful logins are
in the (already updated) history; otherwise it is 35 exactly when the hour of
the attempt is outside the typical-hours list and 0 otherwise; typical hours
are the hours whose count reaches 10 percent of the successful logins, with a
fallback to every active hour when no hour reaches the bar; and the dana
scenario (ten successes at hour 10, an eleventh login at hour 3) scores 35. -/
theorem C4_unusual_time_factor (g : GeoModel) (config : DetectorConfig)
    (state : DetectorState) (attempt : LoginAttempt) :
    ((successfulLoginsAfterUpdate state attempt).length < 10 →
      (analyzeLogin g config state attempt).1.factors.unusualTime = 0) ∧
    (10 ≤ (successfulLoginsAfterUpdate state attempt).length →
      (analyzeLogin g config state attempt).1.factors.unusualTime =
        (if getHourOfDay attempt.timestamp ∈
            calculateTypicalLoginHours (successfulLoginsAfterUpdate state attempt)
          then 0 else 35)) ∧
    (∀ (logins : List LoginAttempt) (hour : ℕ),
      hour ∈ calculateTypicalLoginHours logins ↔
        (hour < 24 ∧ 0 < hourCount logins hour ∧
          (((logins.length : ℚ) * (1 / 10) ≤ (hourCount logins hour : ℚ)) ∨
            (∀ h2, h2 < 24 → ¬(0 < hourCount logins h2 ∧
              ((logins.length : ℚ) * (1 / 10) ≤ (hourCount logins h2 : ℚ))))))) ∧
    (analyzeLogin sampleGeo defaultConfig danaState danaNightAttempt).1.factors.unusualTime
      = 35 := by
  refine ⟨?_, ?_, mem_calculateTypicalLoginHours, ?_⟩
  · intro h
    rw [analyzeLogin_unusualTime, if_pos h]
  · intro h
    rw [analyzeLogin_unusualTime, if_neg (by omega)]
    have hne0 : successfulLoginsAfterUpdate state attempt ≠ [] := by
      intro hnil
      rw [hnil] at h
      simp at h
    have hnonempty := calculateTypicalLoginHours_ne_nil _ hne0
    rw [isUnusualLoginTime_eq _ _ hnonempty]
    by_cases hmem : getHourOfDay attempt.timestamp ∈
        calculateTypicalLoginHours (successfulLoginsAfterUpdate state attempt)
    · simp [List.contains, hmem]
    · simp [List.contains, hmem]
  · with_unfolding_all decide

/-- C4 witness: for the dana scenario the updated history holds eleven
successes, and the factor matches the membership formulation: hour 3 is not
typical, so the factor is 35. -/
theorem C4_unusual_time_factor_witness :
    10 ≤ (successfulLoginsAfterUpdate danaState danaNightAttempt).length ∧
    (analyzeLogin sampleGeo defaultConfig danaState danaNightAttempt).1.factors.unusualTime =
      (if getHourOfDay danaNightAttempt.timestamp ∈
          calculateTypicalLoginHours (successfulLoginsAfterUpdate danaState danaNightAttempt)
        then 0 else 35) :=
  ⟨by with_unfolding_all decide,
    (C4_unusual_time_factor sampleGeo defaultConfig danaState danaNightAttempt).2.1
      (by with_unfolding_all decide)⟩
